import Mathlib

/-!
Shallow embedding of the DN clan chat client's message-feed controller
(`ChatView` and the role subscription in `App`, src/src/App.tsx and
src/unnamed/part_000).  The controller's React state and its event
handlers are modelled as pure functions on an explicit state record;
the Firebase realtime-database transport is modelled at its interface:
a push snapshot is the association list of key/record pairs in the
order the transport delivers them (`Object.keys(data)` enumerates the
snapshot object's keys in exactly that order), `push` is represented by
the payload record handed to it, and `remove` by the path string.
-/

namespace DNClan

/-- The denormalized reply pair stored on a message: `replyTo: \x7b text, sender \x7d`
in the `Message` interface of `App.tsx`. -/
structure ReplyTo where
  text : String
  sender : String
deriving DecidableEq, Repr

/-- The `Message` interface of `App.tsx` (line 15): id plus the stored fields.
`imageUrl`, `role` and `replyTo` are optional fields. -/
structure Message where
  id : String
  text : String
  uid : String
  displayName : String
  photoURL : String
  createdAt : Int
  imageUrl : Option String := none
  role : Option String := none
  replyTo : Option ReplyTo := none
deriving DecidableEq, Repr

/-- A stored message record as it sits under its key in the `messages`
collection: the `Message` fields minus the key `id`. -/
structure MsgRecord where
  text : String
  uid : String
  displayName : String
  photoURL : String
  createdAt : Int
  imageUrl : Option String := none
  role : Option String := none
  replyTo : Option ReplyTo := none
deriving DecidableEq, Repr

/-- A push snapshot of the `messages` query as delivered to the `onValue`
callback: the key/record pairs in the transport's delivery order.
`snap.val()` is `null` exactly when this list is empty. -/
abbrev Snapshot : Type := List (String × MsgRecord)

/-- The current user as consumed by `ChatView` (`user.uid`,
`user.displayName`, `user.photoURL`). -/
structure Identity where
  uid : String
  displayName : String
  photoURL : String
deriving DecidableEq, Repr

/-- The React state of `ChatView`: `messages`, `text` (compose text),
`reply` (pending reply) and `activeMenu`. -/
structure ChatState where
  messages : List Message
  text : String
  reply : Option Message
  activeMenu : Option String
deriving DecidableEq, Repr

/-- `ChatView`'s initial state: `useState([])`, `useState('')`,
`useState(null)`, `useState(null)`. -/
def initialChatState : ChatState :=
  { messages := [], text := "", reply := none, activeMenu := none }

/-- `(\x7b id: k, ...data[k] \x7d)`: attach the key to a stored record. -/
def mkMessage (k : String) (r : MsgRecord) : Message :=
  { id := k, text := r.text, uid := r.uid, displayName := r.displayName,
    photoURL := r.photoURL, createdAt := r.createdAt, imageUrl := r.imageUrl,
    role := r.role, replyTo := r.replyTo }

/-- `Object.keys(data).map(k => (\x7b id: k, ...data[k] \x7d))`: decode a snapshot
into the message list, preserving the delivery order of the keys. -/
def decodeSnapshot (snap : Snapshot) : List Message :=
  snap.map (fun p => mkMessage p.1 p.2)

/-- The `onValue` callback of the feed subscription (App.tsx lines 94-101):
`const data = snap.val(); if (data) setMessages(Object.keys(data).map(...))`.
When the snapshot is empty, `data` is `null` and `setMessages` is not
called, so the previous list is kept. -/
def onValueMessages (snap : Snapshot) (s : ChatState) : ChatState :=
  if snap.isEmpty then s
  else { s with messages := decodeSnapshot snap }

/-- Deliver a sequence of push snapshots to the controller, oldest first. -/
def runFeed (snaps : List Snapshot) (s : ChatState) : ChatState :=
  snaps.foldl (fun st sn => onValueMessages sn st) s

/-- Ascending order of the `createdAt` field along a message list. -/
def sortedByCreatedAt : List Message → Bool
  | [] => true
  | [_] => true
  | a :: b :: rest => decide (a.createdAt ≤ b.createdAt) && sortedByCreatedAt (b :: rest)

/-- The payload handed to the transport's `push` on `messages`.  `sendMsg`
submits `text/uid/displayName/photoURL/role/replyTo`, `uploadImg` submits
`text: ''` with `imageUrl`; `createdAt` is the `serverTimestamp()` marker,
assigned by the transport, so it carries no client-chosen value here. -/
structure Payload where
  text : String
  uid : String
  displayName : String
  photoURL : String
  role : String
  replyTo : Option ReplyTo := none
  imageUrl : Option String := none
deriving DecidableEq, Repr

/-- JavaScript's `String.prototype.trim()`: the string with leading and
trailing whitespace removed (modelled over the ASCII whitespace characters
space, tab, CR and LF, which is what the chat input can contain). -/
def jsTrim (s : String) : String :=
  String.mk (((s.data.dropWhile Char.isWhitespace).reverse.dropWhile
    Char.isWhitespace).reverse)

/-- The denormalized pair built at send time:
`\x7b text: reply.text, sender: reply.displayName \x7d`. -/
def quotePair (m : Message) : ReplyTo :=
  { text := m.text, sender := m.displayName }

/-- `sendMsg` (App.tsx lines 103-111): guard `if (!text.trim()) return;`,
then `push` the payload and clear `text` and `reply`.  `none` means no
transport call was made; `some (p, s2)` is the pushed payload and the
state after the success continuation ran. -/
def sendMsg (s : ChatState) (user : Identity) (userRole : String) :
    Option (Payload × ChatState) :=
  if jsTrim s.text = "" then none
  else some
    ({ text := s.text, uid := user.uid, displayName := user.displayName,
       photoURL := user.photoURL, role := userRole,
       replyTo := s.reply.map quotePair, imageUrl := none },
     { s with text := "", reply := none })

/-- `uploadImg` (App.tsx lines 113-122): the camera result's
`base64String` is `undefined` or a string; `if (img.base64String)` skips
the push when it is absent or empty, otherwise pushes `text: ''` with the
data-URL image. -/
def uploadImg (base64String : Option String) (user : Identity)
    (userRole : String) : Option Payload :=
  match base64String with
  | none => none
  | some b =>
    if b = "" then none
    else some
      { text := "", uid := user.uid, displayName := user.displayName,
        photoURL := user.photoURL, role := userRole, replyTo := none,
        imageUrl := some ("data:image/jpeg;base64," ++ b) }

/-- The reply button's handler (App.tsx line 155):
`setReply(m); setActiveMenu(null);`. -/
def composeReply (m : Message) (s : ChatState) : ChatState :=
  { s with reply := some m, activeMenu := none }

/-- The reply banner's dismiss handler (App.tsx line 170): `setReply(null)`. -/
def clearReply (s : ChatState) : ChatState :=
  { s with reply := none }

/-- The delete button (App.tsx lines 156-158): rendered, and hence able to
call `remove`, only when `userRole === 'Admin' || m.uid === user.uid`;
the call removes the path `messages/$\x7b m.id \x7d`.  `none` means no transport
removal call is issued. -/
def deleteMessage (m : Message) (user : Identity) (userRole : String) :
    Option String :=
  if userRole = "Admin" ∨ m.uid = user.uid then some ("messages/" ++ m.id)
  else none

/-- The effect of a confirmed `remove(messages/i)` on the stored window:
the next snapshot no longer contains the entry with key `i`. -/
def removeMsg (i : String) (feed : List Message) : List Message :=
  feed.filter (fun m => m.id != i)

/-- Look a message up by id in a feed window. -/
def findMsg (j : String) (l : List Message) : Option Message :=
  l.find? (fun m => m.id == j)

/-- A record under `users/uid`: the fields the client reads or writes
(`role`, `name`, `bio`), each possibly absent. -/
structure UserRec where
  role : Option String := none
  name : Option String := none
  bio : Option String := none
deriving DecidableEq, Repr

/-- The `onValue` callback of the role subscription (App.tsx lines 26-37):
`if (snap.exists()) setUserRole(snap.val().role || 'Member')`.  When the
record is absent the state is left unchanged; when the `role` field is
absent or the empty string, `||` yields `'Member'`. -/
def roleStep (cur : String) (snap : Option UserRec) : String :=
  match snap with
  | none => cur
  | some u =>
    match u.role with
    | none => "Member"
    | some r => if r = "" then "Member" else r

/-- Run a sequence of role snapshots from the initial
`useState('Member')`. -/
def runRole (snaps : List (Option UserRec)) : String :=
  snaps.foldl roleStep "Member"

/-- The spec's description of the quoted text in `composeReply`: the
target's text, or a fixed placeholder `ph` meaning "image" when the target
is image-only.  Written from the spec's words, to be compared with
`quotePair`. -/
def specQuotedText (ph : String) (m : Message) : String :=
  if m.text = "" && m.imageUrl.isSome then ph else m.text

/-! Concrete fixtures used by the witnesses and counterexamples.  `recA`
and `recB` are the stored records of the spec's worked example: keys `a`
and `b`, `createdAt` 100 and 50, texts `hi` and `yo`. -/

def recA : MsgRecord :=
  { text := "hi", uid := "u1", displayName := "A", photoURL := "p", createdAt := 100 }

def recB : MsgRecord :=
  { text := "yo", uid := "u2", displayName := "B", photoURL := "p", createdAt := 50 }

/-- The spec's worked snapshot, delivered in key order `a`, `b`. -/
def snapAB : Snapshot := [("a", recA), ("b", recB)]

def u0 : Identity := { uid := "u0", displayName := "U", photoURL := "p" }

def msgA : Message := mkMessage "a" recA

/-- An image-only message: empty text, image attached. -/
def imgMsg : Message :=
  { id := "i1", text := "", uid := "u1", displayName := "A", photoURL := "p",
    createdAt := 10, imageUrl := some "data:image/jpeg;base64,x" }

/-- Compose state about to send `hi` as a reply to `msgA`. -/
def sHi : ChatState := { initialChatState with text := "hi", reply := some msgA }

def clearedHi : ChatState := { sHi with text := "", reply := none }

def payloadHi : Payload :=
  { text := "hi", uid := "u0", displayName := "U", photoURL := "p",
    role := "Member", replyTo := some { text := "hi", sender := "A" } }

/-- Compose state whose text is all whitespace. -/
def composeWs : ChatState := { initialChatState with text := "   " }

def payloadImg : Payload :=
  { text := "", uid := "u0", displayName := "U", photoURL := "p",
    role := "Member", imageUrl := some "data:image/jpeg;base64,x" }

/-- Compose state whose text carries leading and trailing whitespace. -/
def sWs : ChatState := { initialChatState with text := "  hi " }

def clearedWs : ChatState := { sWs with text := "", reply := none }

def payloadWs : Payload :=
  { text := "  hi ", uid := "u0", displayName := "U", photoURL := "p",
    role := "Member" }

/-- A message quoting `msgA` through a denormalized `replyTo` pair. -/
def msgBr : Message :=
  { id := "b2", text := "re", uid := "u2", displayName := "B", photoURL := "p",
    createdAt := 200, replyTo := some { text := "hi", sender := "A" } }

def feedDemo : List Message := [msgA, msgBr]

/-- C1, counterexample: the feed handler performs no sort.  Delivering the
spec's own snapshot (key `a` with `createdAt` 100 before key `b` with
`createdAt` 50, the transport's key order) leaves the list in delivery
order, which is not ascending in `createdAt`, and the resulting list is
the `a`-then-`b` list, not the claimed `[b, a]`. -/
theorem c1_no_sort_counterexample :
    sortedByCreatedAt (runFeed [snapAB] initialChatState).messages = false ∧
    (runFeed [snapAB] initialChatState).messages ≠ [mkMessage "b" recB, mkMessage "a" recA] := by
  decide

/-- C1, amended: after a non-empty snapshot delivery the in-memory list
equals the decoded snapshot in the transport's delivery order — no sort by
`createdAt` is applied — so the list is ascending in `createdAt` exactly
when the delivered snapshot already is. -/
theorem c1_delivery_order (snap : Snapshot) (s : ChatState) (h : snap ≠ []) :
    (onValueMessages snap s).messages = decodeSnapshot snap ∧
    (sortedByCreatedAt (decodeSnapshot snap) = true →
      sortedByCreatedAt (onValueMessages snap s).messages = true) := by
  cases snap with
  | nil => exact absurd rfl h
  | cons a t => exact ⟨rfl, fun hs => hs⟩

/-- Witness for `c1_delivery_order` at the spec's worked snapshot. -/
theorem c1_delivery_order_witness :
    (onValueMessages snapAB initialChatState).messages = decodeSnapshot snapAB :=
  (c1_delivery_order snapAB initialChatState (by decide)).1

/-- C2, counterexample: after a snapshot containing only message `a`, an
empty snapshot delivery (where `snap.val()` is `null`) does not clear the
list — the stale message is retained, so the list is not replaced
wholesale by the empty snapshot. -/
theorem c2_stale_on_empty_counterexample :
    (runFeed [snapAB, []] initialChatState).messages = decodeSnapshot snapAB ∧
    (runFeed [snapAB, []] initialChatState).messages ≠ ([] : List Message) := by
  decide

/-- C2, amended: a non-empty push snapshot replaces the in-memory list
wholesale with the decoded snapshot, but an empty snapshot leaves the
entire controller state — stale messages included — unchanged, because
`setMessages` is guarded by `if (data)`. -/
theorem c2_snapshot_replace (snap : Snapshot) (s : ChatState) :
    (snap ≠ [] → (onValueMessages snap s).messages = decodeSnapshot snap) ∧
    (snap = [] → onValueMessages snap s = s) := by
  cases snap with
  | nil => exact ⟨fun h => absurd rfl h, fun _ => rfl⟩
  | cons a t => exact ⟨fun _ => rfl, fun h => by cases h⟩

/-- Witness for `c2_snapshot_replace`: an empty delivery to the initial
state changes nothing. -/
theorem c2_snapshot_replace_witness :
    onValueMessages [] initialChatState = initialChatState :=
  (c2_snapshot_replace [] initialChatState).2 rfl

/-- C8: for every starting state and every target message, `composeReply`
followed by `clearReply` leaves the pending reply `null` and the compose
text exactly as it was. -/
theorem c8_reply_roundtrip (s : ChatState) (m : Message) :
    (clearReply (composeReply m s)).reply = none ∧
    (clearReply (composeReply m s)).text = s.text :=
  ⟨rfl, rfl⟩

/-- C9, counterexample: it is not the case that every delivery without a
user record yields role `Member` — when the record is absent the handler
is a no-op, so a previously delivered `Admin` role survives. -/
theorem c9_missing_record_counterexample :
    ¬ (∀ (snaps : List (Option UserRec)) (snap : Option UserRec),
        snap = none → roleStep (runRole snaps) snap = "Member") := by
  intro h
  exact absurd (h [some { role := some "Admin" }] none rfl) (by decide)

/-- C9, amended: the initial role is `Member`; a delivered record without
a `role` field resets the role to `Member` whatever it was; a delivery
with no record leaves the role unchanged — so the role is `Member` until
a record carrying a role arrives. -/
theorem c9_role_fallback :
    runRole [] = "Member" ∧
    (∀ (cur : String) (u : UserRec), u.role = none →
      roleStep cur (some u) = "Member") ∧
    (∀ cur : String, roleStep cur none = cur) :=
  ⟨rfl, fun cur u h => by simp [roleStep, h], fun cur => rfl⟩

/-- Witness for `c9_role_fallback`: a role-less record demotes an `Admin`
back to `Member`, while a missing record keeps `Admin`. -/
theorem c9_role_fallback_witness :
    roleStep "Admin" (some {}) = "Member" ∧ roleStep "Admin" none = "Admin" :=
  ⟨c9_role_fallback.2.1 "Admin" {} rfl, c9_role_fallback.2.2 "Admin"⟩

/-- Trimming the empty string gives the empty string. -/
theorem jsTrim_empty : jsTrim "" = "" := rfl

/-- A string with a non-empty trim is itself non-empty. -/
theorem text_ne_of_jsTrim_ne {t : String} (h : jsTrim t ≠ "") : t ≠ "" := by
  intro he
  exact h (he ▸ jsTrim_empty)

/-- C3: a compose state whose text trims to empty (and carries no
attachment — text sends never do) makes no transport append call, and
every payload either path submits has non-empty text or an image
attachment. -/
theorem c3_no_empty_submission :
    (∀ (s : ChatState) (u : Identity) (r : String),
      jsTrim s.text = "" → sendMsg s u r = none) ∧
    (∀ (s : ChatState) (u : Identity) (r : String) (p : Payload) (s2 : ChatState),
      sendMsg s u r = some (p, s2) → p.text ≠ "" ∨ p.imageUrl.isSome = true) ∧
    (∀ (b : Option String) (u : Identity) (r : String) (p : Payload),
      uploadImg b u r = some p → p.text ≠ "" ∨ p.imageUrl.isSome = true) := by
  refine ⟨fun s u r h => ?_, fun s u r p s2 h => ?_, fun b u r p h => ?_⟩
  · simp [sendMsg, h]
  · by_cases ht : jsTrim s.text = ""
    · simp [sendMsg, ht] at h
    · simp [sendMsg, ht] at h
      obtain ⟨hp, hs⟩ := h
      subst hp
      exact Or.inl (text_ne_of_jsTrim_ne ht)
  · cases b with
    | none => simp [uploadImg] at h
    | some v =>
      by_cases hv : v = ""
      · simp [uploadImg, hv] at h
      · simp [uploadImg, hv] at h
        exact Or.inr (by simp [← h])

/-- Witness for `c3_no_empty_submission`: whitespace-only compose text is
a no-op, and the concrete text and image payloads are both valid. -/
theorem c3_no_empty_submission_witness :
    sendMsg composeWs u0 "Member" = none ∧
    (payloadHi.text ≠ "" ∨ payloadHi.imageUrl.isSome = true) ∧
    (payloadImg.text ≠ "" ∨ payloadImg.imageUrl.isSome = true) :=
  ⟨c3_no_empty_submission.1 composeWs u0 "Member" (by decide),
   c3_no_empty_submission.2.1 sHi u0 "Member" payloadHi clearedHi (by decide),
   c3_no_empty_submission.2.2 (some "x") u0 "Member" payloadImg (by decide)⟩

/-- C4: a transport removal call is issued exactly for the author or an
`Admin`; a non-author, non-`Admin` requester never triggers one. -/
theorem c4_delete_gate :
    (∀ (m : Message) (u : Identity) (r : String),
      deleteMessage m u r ≠ none → u.uid = m.uid ∨ r = "Admin") ∧
    (∀ (m : Message) (u : Identity) (r : String),
      u.uid ≠ m.uid → r ≠ "Admin" → deleteMessage m u r = none) := by
  constructor
  · intro m u r h
    by_cases hc : r = "Admin" ∨ m.uid = u.uid
    · rcases hc with hr | hu
      · exact Or.inr hr
      · exact Or.inl hu.symm
    · exact absurd (if_neg hc) h
  · intro m u r hu hr
    exact if_neg (fun hc => hc.elim hr (fun he => hu he.symm))

/-- Witness for `c4_delete_gate`: `u0` is neither the author of `msgA`
nor an `Admin`, so no removal call is made. -/
theorem c4_delete_gate_witness : deleteMessage msgA u0 "Member" = none :=
  c4_delete_gate.2 msgA u0 "Member" (by decide) (by decide)

/-- C5, counterexample: no non-empty placeholder makes the claim true —
the quoted text is always the target's text verbatim, so for an
image-only target (empty text, image attached) the stored quoted text is
the empty string, not a placeholder meaning "image". -/
theorem c5_no_placeholder_counterexample :
    ¬ (∃ ph : String, ph ≠ "" ∧ ∀ (m : Message) (s : ChatState),
        (composeReply m s).reply.map quotePair =
          some { text := specQuotedText ph m, sender := m.displayName } ∧
        (composeReply m s).activeMenu = s.activeMenu) := by
  rintro ⟨ph, hne, h⟩
  have h1 := (h imgMsg initialChatState).1
  simp [composeReply, quotePair, specQuotedText, imgMsg, ReplyTo.mk.injEq] at h1
  exact hne h1.symm

/-- C5, amended: `composeReply(target)` stores the target message itself
in `pendingReply` (and closes the message action menu); the denormalized
pair derived from it — at send time — is the target's text verbatim
(empty for an image-only target; no placeholder) together with the
target's display name; messages and compose text are untouched. -/
theorem c5_compose_reply (m : Message) (s : ChatState) :
    composeReply m s = { s with reply := some m, activeMenu := none } ∧
    (composeReply m s).reply.map quotePair =
      some { text := m.text, sender := m.displayName } ∧
    (composeReply m s).text = s.text ∧
    (composeReply m s).messages = s.messages :=
  ⟨rfl, rfl, rfl, rfl⟩

/-- C6: whenever the send guard passes and the append succeeds, the state
after `sendMsg`'s continuation has empty compose text and no pending
reply. -/
theorem c6_send_clears (s : ChatState) (u : Identity) (r : String)
    (p : Payload) (s2 : ChatState) (h : sendMsg s u r = some (p, s2)) :
    s2.text = "" ∧ s2.reply = none := by
  by_cases ht : jsTrim s.text = ""
  · simp [sendMsg, ht] at h
  · simp [sendMsg, ht] at h
    obtain ⟨hp, hs⟩ := h
    subst hs
    exact ⟨rfl, rfl⟩

/-- Witness for `c6_send_clears`: sending `hi` as a reply clears both
compose fields. -/
theorem c6_send_clears_witness : clearedHi.text = "" ∧ clearedHi.reply = none :=
  c6_send_clears sHi u0 "Member" payloadHi clearedHi (by decide)

/-- Removing one key from the window does not touch the record stored
under any other key. -/
theorem findMsg_removeMsg (feed : List Message) (i j : String) (h : j ≠ i) :
    findMsg j (removeMsg i feed) = findMsg j feed := by
  unfold findMsg removeMsg
  rw [List.find?_filter]
  congr 1
  funext a
  by_cases ha : a.id = j
  · simp [ha, bne, h]
  · simp [ha]

/-- C7: the `replyContext` pair is denormalized — fixed at send time from
the pending reply — and deleting any other message (the quoted original
included) from the feed leaves every remaining message's stored record,
its `replyTo` pair included, bit-for-bit unchanged. -/
theorem c7_reply_context_retained :
    (∀ (feed : List Message) (i j : String), j ≠ i →
      findMsg j (removeMsg i feed) = findMsg j feed) ∧
    (∀ (s : ChatState) (u : Identity) (r : String) (p : Payload) (s2 : ChatState),
      sendMsg s u r = some (p, s2) → p.replyTo = s.reply.map quotePair) := by
  constructor
  · exact fun feed i j h => findMsg_removeMsg feed i j h
  · intro s u r p s2 h
    by_cases ht : jsTrim s.text = ""
    · simp [sendMsg, ht] at h
    · simp [sendMsg, ht] at h
      obtain ⟨hp, hs⟩ := h
      subst hp
      rfl

/-- Witness for `c7_reply_context_retained`: deleting the quoted original
`a` leaves `b2`'s record — with its quoted pair — unchanged, and the
concrete reply payload carries exactly the pending reply's pair. -/
theorem c7_reply_context_retained_witness :
    findMsg "b2" (removeMsg "a" feedDemo) = findMsg "b2" feedDemo ∧
    payloadHi.replyTo = sHi.reply.map quotePair :=
  ⟨c7_reply_context_retained.1 feedDemo "a" "b2" (by decide),
   c7_reply_context_retained.2 sHi u0 "Member" payloadHi clearedHi (by decide)⟩

/-- C10: the pushed payload carries the compose text verbatim — trimming
is applied only to the emptiness guard, never to the sent text. -/
theorem c10_text_verbatim (s : ChatState) (u : Identity) (r : String)
    (p : Payload) (s2 : ChatState) (h : sendMsg s u r = some (p, s2)) :
    p.text = s.text := by
  by_cases ht : jsTrim s.text = ""
  · simp [sendMsg, ht] at h
  · simp [sendMsg, ht] at h
    obtain ⟨hp, hs⟩ := h
    subst hp
    rfl

/-- Witness for `c10_text_verbatim`: the payload for compose text
`"  hi "` keeps its leading and trailing whitespace. -/
theorem c10_text_verbatim_witness : payloadWs.text = sWs.text :=
  c10_text_verbatim sWs u0 "Member" payloadWs clearedWs (by decide)

end DNClan
